import Mathlib

/-!
Verification of the data-access core of the operations-management system
(`app/core/db.py`, `app/quality/sql/quality_queries.py`,
`app/quality/repo/QualityRepository.py`, `app/quality/service/QualityService.py`)
against its natural-language specification.

The Python source is shallowly embedded: SQL values are an explicit sum type
with a NULL constructor, SQL WHERE clauses use Kleene three-valued logic,
`LIKE` is a real wildcard matcher over character lists, rows returned by the
driver are association lists (Python dicts preserve insertion order), and the
stateful connection wrapper is modelled as a pure function that also returns
the trace of driver actions it performed.
-/

/-- A value as it travels between Python and MySQL: SQL NULL / Python `None`,
a string, or an integer.  (Floats, dates and blobs are not needed by any
claim; date and money columns are carried opaquely as `SqlVal` fields.) -/
inductive SqlVal
  | vnull
  | vstr (s : String)
  | vint (n : Int)
deriving DecidableEq, Repr

/-- ASCII uppercase on the character list of a string.  Models both Python
`str.upper()` and MySQL `UPPER()` for the ASCII data handled here. -/
def upperStr (s : String) : String :=
  String.mk (s.data.map Char.toUpper)

/-- Python `str.startswith(pre)` over the character list. -/
def pyStartsWith (s pre : String) : Bool :=
  pre.data.isPrefixOf s.data

/-- Python `s[n:]` over the character list. -/
def pyDrop (s : String) (n : Nat) : String :=
  String.mk (s.data.drop n)

/-- Python `str.strip()` (no arguments: strip whitespace at both ends),
over the character list. -/
def pyStrip (s : String) : String :=
  String.mk
    (((s.data.dropWhile Char.isWhitespace).reverse.dropWhile
        Char.isWhitespace).reverse)

/-- Kleene three-valued boolean used by SQL predicates: `none` is UNKNOWN. -/
abbrev SqlB := Option Bool

def sqlNot : SqlB → SqlB
  | none => none
  | some b => some (!b)

def sqlAnd : SqlB → SqlB → SqlB
  | some false, _ => some false
  | _, some false => some false
  | some true, some true => some true
  | _, _ => none

def sqlOr : SqlB → SqlB → SqlB
  | some true, _ => some true
  | _, some true => some true
  | some false, some false => some false
  | _, _ => none

/-- MySQL `LIKE` pattern matching, fuelled so that the recursion is
structural (every step shortens the pattern or the subject, so
`pattern.length + subject.length + 1` fuel always suffices): `%` matches any
(possibly empty) sequence, `_` matches exactly one character, every other
pattern character matches itself.  (The default `\` escape is not used by any
pattern in this code base and is not modelled.) -/
def likeFuel : Nat → List Char → List Char → Bool
  | 0, _, _ => false
  | f + 1, p, s =>
      match p with
      | [] => s.isEmpty
      | c :: p2 =>
          if c = '%' then
            likeFuel f p2 s ||
              (match s with
               | [] => false
               | _ :: s2 => likeFuel f (c :: p2) s2)
          else if c = '_' then
            match s with
            | [] => false
            | _ :: s2 => likeFuel f p2 s2
          else
            match s with
            | [] => false
            | d :: s2 => decide (c = d) && likeFuel f p2 s2

/-- Model of `LIKE` with the canonical (always sufficient) amount of fuel. -/
def likeMatch (p : List Char) (s : List Char) : Bool :=
  likeFuel (p.length + s.length + 1) p s

/-- Model of `col LIKE pattern` with a possibly-NULL column: NULL operand gives UNKNOWN. -/
def sqlLike (col : Option String) (pat : String) : SqlB :=
  match col with
  | none => none
  | some s => some (likeMatch pat.data s.data)

/-- MySQL `UPPER` on a nullable column. -/
def sqlUpper (col : Option String) : Option String :=
  col.map upperStr

/-- Equality predicate between a nullable column and a nullable bound
parameter; NULL on either side gives UNKNOWN. -/
def sqlEqStr (a b : Option String) : SqlB :=
  match a, b with
  | some x, some y => some (decide (x = y))
  | _, _ => none

def sqlEqInt (a b : Option Int) : SqlB :=
  match a, b with
  | some x, some y => some (decide (x = y))
  | _, _ => none

/-- Model of `col <> ''` on a nullable column. -/
def sqlNeEmpty (col : Option String) : SqlB :=
  match col with
  | none => none
  | some s => some (decide (s ≠ ""))

/-- Model of `COALESCE` of two nullable columns. -/
def sqlCoalesce (a b : Option String) : Option String :=
  match a with
  | some x => some x
  | none => b

/-- Model of `NULLIF(col, '')`: turn the empty string into NULL. -/
def sqlNullifEmpty (col : Option String) : Option String :=
  match col with
  | none => none
  | some s => if s = "" then none else some s

/-- Model of `CONCAT_WS(sep, x1, ..., xn)`: join the non-NULL arguments with the
separator (the result is never NULL; all-NULL arguments give `""`). -/
def sqlConcatWs (sep : String) (parts : List (Option String)) : String :=
  String.intercalate sep (parts.filterMap id)

/-- Python truthiness-based normalization `(v or "").strip() or None`
used by the repository for plain string filters. -/
def normOptStr (v : Option String) : Option String :=
  let s := pyStrip (v.getD "")
  if s = "" then none else some s

/-- Repository normalization for the document-type filter:
`(tipodoc or "").strip().upper() or None`. -/
def normTipodoc (v : Option String) : Option String :=
  let s := upperStr (pyStrip (v.getD ""))
  if s = "" then none else some s

def optStrV : Option String → SqlVal
  | none => .vnull
  | some s => .vstr s

def optIntV : Option Int → SqlVal
  | none => .vnull
  | some n => .vint n

/-! ## Insertion sort (kernel-computable stand-in for SQL `ORDER BY`) -/

def insertLe {α : Type} (le : α → α → Bool) (a : α) : List α → List α
  | [] => [a]
  | b :: l => if le a b then a :: b :: l else b :: insertLe le a l

def sortLe {α : Type} (le : α → α → Bool) : List α → List α
  | [] => []
  | a :: l => insertLe le a (sortLe le l)


/-! ## `app/core/db.py`: `QueryType`, `MySQLDb.execute`, `DbManager`

The connection wrapper's `execute` is embedded as a pure function from the
connection liveness, the operation kind and the behaviour of the underlying
driver (which step raises, what the fetch returns) to the Python-level
outcome together with the ordered trace of driver actions performed
(`try`/`except`/`finally` control flow is unfolded into explicit cases). -/

inductive QueryType
  | SELECT
  | GET
  | INSERT
  | UPDATE
  | DELETE
  | SCRIPT
deriving DecidableEq, Repr

/-- A Python exception as it concerns the wrapper: the `RuntimeError` raised
when `execute` is called without a live connection, or an arbitrary
driver/database exception identified opaquely. -/
inductive PyExc
  | runtimeNotConnected
  | driverErr (id : Nat)
deriving DecidableEq, Repr

/-- One row as returned by a `dictionary=True` cursor: an association list in
column order (Python dicts preserve insertion order). -/
abbrev AssocRow := List (String × SqlVal)

/-- Behaviour of the underlying driver for one `execute` call: outcome of the
statement execution, of the fetch, and of the commit.  `rollback` and cursor
close are modelled as non-failing releases. -/
structure DriverBeh where
  runRes : Except PyExc Unit
  fetchRes : Except PyExc (List AssocRow)
  commitRes : Except PyExc Unit

/-- A driver action performed by `MySQLDb.execute`, in order. -/
inductive DbAction
  | openCursor
  | runStmt (sql : String) (params : List SqlVal)
  | fetchAll
  | commit
  | rollback
  | closeCursor
deriving DecidableEq, Repr

/-- Model of `MySQLDb.execute` (db.py lines 102-147): raise `RuntimeError` when the
connection is absent or not live; otherwise open a cursor and, inside
`try .. except Exception: rollback; raise .. finally: cursor.close()`,
dispatch on the operation kind (SCRIPT: run multi + commit; SELECT/GET:
run + fetchall; other kinds: run + commit).  Cursor acquisition happens
before the `try` in the source and is modelled as non-failing, like the
rollback and the cursor close. -/
def MySQLDb.execute (connected : Bool) (query_type : QueryType)
    (sql : String) (params : List SqlVal) (beh : DriverBeh) :
    Except PyExc (List AssocRow) × List DbAction :=
  if ¬ connected then
    (.error .runtimeNotConnected, [])
  else
    match query_type with
    | .SCRIPT =>
        match beh.runRes with
        | .error e =>
            (.error e, [.openCursor, .runStmt sql params, .rollback, .closeCursor])
        | .ok _ =>
            match beh.commitRes with
            | .error e =>
                (.error e,
                  [.openCursor, .runStmt sql params, .commit, .rollback, .closeCursor])
            | .ok _ =>
                (.ok [], [.openCursor, .runStmt sql params, .commit, .closeCursor])
    | .SELECT | .GET =>
        match beh.runRes with
        | .error e =>
            (.error e, [.openCursor, .runStmt sql params, .rollback, .closeCursor])
        | .ok _ =>
            match beh.fetchRes with
            | .error e =>
                (.error e,
                  [.openCursor, .runStmt sql params, .fetchAll, .rollback, .closeCursor])
            | .ok rows =>
                (.ok rows, [.openCursor, .runStmt sql params, .fetchAll, .closeCursor])
    | _ =>
        match beh.runRes with
        | .error e =>
            (.error e, [.openCursor, .runStmt sql params, .rollback, .closeCursor])
        | .ok _ =>
            match beh.commitRes with
            | .error e =>
                (.error e,
                  [.openCursor, .runStmt sql params, .commit, .rollback, .closeCursor])
            | .ok _ =>
                (.ok [], [.openCursor, .runStmt sql params, .commit, .closeCursor])

/-! ### `MySQLDb.connect` / `MySQLDb.close` / `DbManager` state model -/

/-- Connection state of one `MySQLDb` instance: `none` when `_conn is None`,
`some live` when a connection object is held (`live` = `is_connected()`). -/
abbrev ConnSt := Option Bool

/-- Model of `MySQLDb.connect` (db.py lines 57-94): return immediately when already
live, otherwise establish a live connection. -/
def MySQLDb.connect (st : ConnSt) : ConnSt :=
  match st with
  | some true => some true
  | _ => some true

/-- Model of `MySQLDb.close` (db.py lines 96-99): close the driver connection if one
is live, then unconditionally set `_conn = None`.  Total, hence safe to call
in any state. -/
def MySQLDb.close (_st : ConnSt) : ConnSt :=
  none

/-- Model of `DbManager` `with`-statement semantics (db.py lines 197-221): `__enter__`
calls `connect()` and hands the wrapper to the body; `__exit__` calls
`close()` and returns `None`, so it runs on every exit path and never
suppresses the body's exception.  The body is any function of the entered
state returning its Python outcome (normal value, early return, or raised
exception as `.error`) together with the wrapper state it leaves behind. -/
def DbManager.scope {α : Type} (body : ConnSt → Except PyExc α × ConnSt)
    (st : ConnSt) : Except PyExc α × ConnSt :=
  let entered := MySQLDb.connect st
  let out := body entered
  (out.1, MySQLDb.close out.2)

/-! ## Relational model of the `fox_staging` schema

Only columns that the quality queries read are modelled.  Columns belonging
to the logical composite key `(tipodoc, esanno, numerodoc)` and the line
number / surrogate id are modelled as non-NULL (they are key columns of the
legacy schema); every other column that a predicate inspects is `Option`;
columns that are only projected opaquely are `SqlVal`. -/

structure DocTes where
  tipodoc : String
  esanno : Int
  numerodoc : String
  datadoc : Int
  codicecf : Option String
  ddragsoc : SqlVal
  ddindir : SqlVal
  ddcap : SqlVal
  ddlocal : SqlVal
  totdoc : SqlVal
  totimp : SqlVal
  totmerce : SqlVal
  totiva : SqlVal
  oggetto : SqlVal
  note : SqlVal
  username : SqlVal
  timestamp_row : SqlVal
deriving DecidableEq, Repr

structure DocRig where
  id : Int
  tipodoc : String
  esanno : Int
  numerodoc : String
  numeroriga : Int
  codicearti : Option String
  descrizion : Option String
  unmisura : SqlVal
  quantita : SqlVal
  quantitare : SqlVal
  sconti : SqlVal
  prezzoun : SqlVal
  prezzotot : SqlVal
  aliiva : SqlVal
  magpartenz : SqlVal
  magarrivo : SqlVal
  lotto : SqlVal
  commessa : SqlVal
  mezzo : SqlVal
  tipolav : SqlVal
  codcaumag : SqlVal
  u_compon1 : Option String
  u_compon2 : Option String
  u_compon3 : Option String
  u_compon4 : Option String
  note : SqlVal
  username : SqlVal
  timestamp_row : SqlVal
deriving DecidableEq, Repr

structure Anagrafe where
  codice : String
  descrizion : Option String
  supragsoc : Option String
  partiva : SqlVal
  codfiscale : SqlVal
deriving DecidableEq, Repr

structure MagArt where
  codice : String
  descrizion : Option String
  u_passo : Option String
  u_fascia : Option String
deriving DecidableEq, Repr

structure UScimp where
  id_rigadoc : Int
  passo : Option String
  fascia : Option String
deriving DecidableEq, Repr

structure Db where
  doctes : List DocTes
  docrig : List DocRig
  anagrafe : List Anagrafe
  magart : List MagArt
  u_scimp : List UScimp
deriving DecidableEq, Repr

/-- Model of `LEFT JOIN`: when no row of the right table matches, keep the left row
once with NULLs for the right side; otherwise one result per match. -/
def leftJoin1 {α : Type} (ms : List α) : List (Option α) :=
  match ms with
  | [] => [none]
  | ms => ms.map some

/-- Rows of `anagrafe` matching `a.CODICE = d.codicecf` (NULL matches none). -/
def anagrafeMatches (db : Db) (d : DocTes) : List Anagrafe :=
  db.anagrafe.filter (fun a => some a.codice = d.codicecf)

/-- Rows of `magart` matching `ma.CODICE = r.codicearti` (NULL matches none). -/
def magartMatches (db : Db) (r : DocRig) : List MagArt :=
  db.magart.filter (fun ma => some ma.codice = r.codicearti)

/-- Rows of `u_scimp` matching `us.id_rigadoc = r.id`. -/
def uscimpMatches (db : Db) (r : DocRig) : List UScimp :=
  db.u_scimp.filter (fun us => us.id_rigadoc = r.id)

/-- Model of `docrig` rows joined to a `doctes` row by the composite key
(`r.tipodoc = d.tipodoc AND r.esanno = d.esanno AND r.numerodoc = d.numerodoc`). -/
def docrigMatches (db : Db) (d : DocTes) : List DocRig :=
  db.docrig.filter
    (fun r => r.tipodoc = d.tipodoc ∧ r.esanno = d.esanno ∧ r.numerodoc = d.numerodoc)

/-- The recognized document-type set `TIPI_DOC_LAVORO` of
`QuerySqlQualityMYSQL` (quality_queries.py line 33). -/
def TIPI_DOC_LAVORO : List String := ["OC", "ON", "BA", "CB", "BC", "BO"]

/-- Model of `COALESCE(a.SUPRAGSOC, a.DESCRIZION)` through the left join. -/
def clienteNome (aOpt : Option Anagrafe) : Option String :=
  match aOpt with
  | none => none
  | some a => sqlCoalesce a.supragsoc a.descrizion

/-- Model of `CONCAT_WS(' / ', NULLIF(r.u_compon1,''), ..., NULLIF(r.u_compon4,''))`. -/
def componenti (r : DocRig) : String :=
  sqlConcatWs " / "
    [sqlNullifEmpty r.u_compon1, sqlNullifEmpty r.u_compon2,
     sqlNullifEmpty r.u_compon3, sqlNullifEmpty r.u_compon4]

/-- Model of `%s IS NULL OR col = %s` for a string filter: the doubled-parameter
optional-filter idiom over three-valued logic. -/
def optEqStrPred (v : Option String) (col : Option String) : SqlB :=
  sqlOr (some v.isNone) (match v with | none => none | some x => sqlEqStr col (some x))

def optEqIntPred (v : Option Int) (col : Option Int) : SqlB :=
  sqlOr (some v.isNone) (match v with | none => none | some x => sqlEqInt col (some x))

/-- The pattern the driver actually sends for
`LIKE CONCAT('%%', %s, '%%')`: mysql-connector substitutes only the `%s`
placeholder, so MySQL receives the two-wildcard pattern `%%v%%` (equivalent
to `%v%`). -/
def likePatBoth (v : String) : String :=
  "%%" ++ v ++ "%%"

/-- Model of `col LIKE CONCAT('%%', v, '%%')` for a non-NULL bound value `v`. -/
def likeContains (col : Option String) (v : String) : SqlB :=
  sqlLike col (likePatBoth v)

/-! ## `search_articoli_per_cliente_sql` (quality_queries.py lines 158-278) -/

/-- One result row of the counterparty-line search, fields in SELECT order. -/
structure ArtRow where
  d_tipodoc : String
  d_esanno : Int
  d_numerodoc : String
  d_datadoc : Int
  d_codicecf : Option String
  d_cliente_nome : Option String
  r_numeroriga : Int
  r_codicearti : Option String
  r_descrizione_articolo : Option String
  r_descrizione_riga : Option String
  r_unmisura : SqlVal
  r_quantita : SqlVal
  r_quantitare : SqlVal
  r_pass : Option String
  r_fascia : Option String
  r_componenti : String
deriving DecidableEq, Repr

/-- One tuple of the FROM/JOIN clause shared by the two line-bearing
queries: `doctes d JOIN docrig r ON (key) LEFT JOIN anagrafe a LEFT JOIN
magart ma LEFT JOIN u_scimp us`. -/
structure JoinedLine where
  d : DocTes
  a : Option Anagrafe
  r : DocRig
  ma : Option MagArt
  us : Option UScimp
deriving DecidableEq, Repr

def lineJoin (db : Db) : List JoinedLine :=
  db.doctes.flatMap (fun d =>
    (docrigMatches db d).flatMap (fun r =>
      (leftJoin1 (anagrafeMatches db d)).flatMap (fun a =>
        (leftJoin1 (magartMatches db r)).flatMap (fun ma =>
          (leftJoin1 (uscimpMatches db r)).map (fun us =>
            ⟨d, a, r, ma, us⟩)))))

/-- Model of `%s IS NULL OR a.DESCRIZION LIKE CONCAT('%%',%s,'%%') OR a.SUPRAGSOC
LIKE CONCAT('%%',%s,'%%')`: when the parameter is NULL every branch of the
OR is evaluated with a NULL pattern (UNKNOWN) but the IS NULL branch is
already TRUE. -/
def clienteSearchPred (v : Option String) (aOpt : Option Anagrafe) : SqlB :=
  sqlOr (some v.isNone)
    (match v with
     | none => none
     | some x =>
         sqlOr (likeContains (aOpt.bind Anagrafe.descrizion) x)
           (likeContains (aOpt.bind Anagrafe.supragsoc) x))

/-- The item-text OR group of the counterparty-line search (five columns of
the already-joined row, quality_queries.py lines 252-261). -/
def articoloSearchPredJoined (v : Option String) (r : DocRig)
    (maOpt : Option MagArt) (usOpt : Option UScimp) : SqlB :=
  sqlOr (some v.isNone)
    (match v with
     | none => none
     | some x =>
         sqlOr (likeContains r.codicearti x)
           (sqlOr (likeContains r.descrizion x)
             (sqlOr (likeContains (maOpt.bind MagArt.descrizion) x)
               (sqlOr (likeContains (usOpt.bind UScimp.passo) x)
                 (likeContains (usOpt.bind UScimp.fascia) x)))))

/-- The packaging-sentinel exclusion (quality_queries.py lines 263-270):
`NOT (UPPER(r.codicearti) LIKE 'CONAI%%' OR UPPER(r.codicearti) LIKE
'BANCALE%%' OR UPPER(r.descrizion) LIKE '%CONAI%' OR ... )`.  The first two
patterns carry the doubled `%%` wildcard exactly as the driver sends them. -/
def sentinelExclusionPred (r : DocRig) (maOpt : Option MagArt) : SqlB :=
  sqlNot
    (sqlOr (sqlLike (sqlUpper r.codicearti) "CONAI%%")
      (sqlOr (sqlLike (sqlUpper r.codicearti) "BANCALE%%")
        (sqlOr (sqlLike (sqlUpper r.descrizion) "%CONAI%")
          (sqlOr (sqlLike (sqlUpper r.descrizion) "%BANCALE%")
            (sqlOr (sqlLike (sqlUpper (maOpt.bind MagArt.descrizion)) "%CONAI%")
              (sqlLike (sqlUpper (maOpt.bind MagArt.descrizion)) "%BANCALE%"))))))

/-- Full WHERE clause of `search_articoli_per_cliente_sql`, conjuncts in the
literal order of the template. -/
def articoliWhere (pTipodoc : Option String) (pYear : Option Int)
    (pCodicecf pCliente pArticolo : Option String) (j : JoinedLine) : SqlB :=
  sqlAnd (some (decide (j.d.tipodoc ∈ TIPI_DOC_LAVORO)))
    (sqlAnd (optEqStrPred pTipodoc (some j.d.tipodoc))
      (sqlAnd (optEqIntPred pYear (some j.d.esanno))
        (sqlAnd (optEqStrPred pCodicecf j.d.codicecf)
          (sqlAnd (clienteSearchPred pCliente j.a)
            (sqlAnd (articoloSearchPredJoined pArticolo j.r j.ma j.us)
              (sqlAnd (sentinelExclusionPred j.r j.ma)
                (sqlAnd (some j.r.codicearti.isSome)
                  (sqlNeEmpty j.r.codicearti))))))))

/-- The SELECT projection of the counterparty-line search. -/
def mkArtRow (j : JoinedLine) : ArtRow :=
  { d_tipodoc := j.d.tipodoc
    d_esanno := j.d.esanno
    d_numerodoc := j.d.numerodoc
    d_datadoc := j.d.datadoc
    d_codicecf := j.d.codicecf
    d_cliente_nome := clienteNome j.a
    r_numeroriga := j.r.numeroriga
    r_codicearti := j.r.codicearti
    r_descrizione_articolo := j.ma.bind MagArt.descrizion
    r_descrizione_riga := j.r.descrizion
    r_unmisura := j.r.unmisura
    r_quantita := j.r.quantita
    r_quantitare := j.r.quantitare
    r_pass := sqlCoalesce (j.us.bind UScimp.passo) (j.ma.bind MagArt.u_passo)
    r_fascia := sqlCoalesce (j.us.bind UScimp.fascia) (j.ma.bind MagArt.u_fascia)
    r_componenti := componenti j.r }

/-- Model of `ORDER BY d.datadoc DESC, d.numerodoc DESC, r.numeroriga ASC` (string
order stands in for the column collation). -/
def artRowLe (x y : ArtRow) : Bool :=
  if x.d_datadoc ≠ y.d_datadoc then decide (y.d_datadoc ≤ x.d_datadoc)
  else if x.d_numerodoc ≠ y.d_numerodoc then decide (y.d_numerodoc ≤ x.d_numerodoc)
  else decide (x.r_numeroriga ≤ y.r_numeroriga)

/-- Evaluation of `search_articoli_per_cliente_sql`: join, WHERE (kept iff
TRUE), ORDER BY, `LIMIT %s OFFSET %s`. -/
def QuerySqlQualityMYSQL.search_articoli_eval (db : Db)
    (pTipodoc : Option String) (pYear : Option Int)
    (pCodicecf pCliente pArticolo : Option String)
    (limit offset : Nat) : List ArtRow :=
  let kept := (lineJoin db).filter
    (fun j => articoliWhere pTipodoc pYear pCodicecf pCliente pArticolo j = some true)
  ((sortLe artRowLe (kept.map mkArtRow)).drop offset).take limit

/-- Model of `QualityRepositoryMYSQL.search_articoli_per_cliente`
(QualityRepository.py lines 134-204): normalize every filter (strip, coerce
empty to None, upper-case the type code) and bind the parameters in template
order.  The parameter list itself is the 17-slot positional binding; since
the evaluator consumes the five distinct filter values, binding in template
order is what `search_articoli_eval`'s argument order encodes. -/
def QualityRepositoryMYSQL.search_articoli_per_cliente (db : Db)
    (tipodoc : Option String) (year : Option Int)
    (codicecf cliente_search articolo_search : Option String)
    (limit offset : Nat) : List ArtRow :=
  QuerySqlQualityMYSQL.search_articoli_eval db
    (normTipodoc tipodoc) year (normOptStr codicecf)
    (normOptStr cliente_search) (normOptStr articolo_search) limit offset

/-! ## `get_scheda_lavoro_sql` (quality_queries.py lines 315-409) -/

/-- Header (`d_`-prefixed) part of one detail row, all 20 SELECTed fields. -/
structure DetHeader where
  d_tipodoc : String
  d_esanno : Int
  d_numerodoc : String
  d_datadoc : Int
  d_codicecf : Option String
  d_cliente_nome : Option String
  d_piva : SqlVal
  d_cfisc : SqlVal
  d_ddragsoc : SqlVal
  d_ddindir : SqlVal
  d_ddcap : SqlVal
  d_ddlocal : SqlVal
  d_totdoc : SqlVal
  d_totimp : SqlVal
  d_totmerce : SqlVal
  d_totiva : SqlVal
  d_oggetto : SqlVal
  d_note_testa : SqlVal
  d_username : SqlVal
  d_timestamp_row : SqlVal
deriving DecidableEq, Repr

/-- Line (`r_`-prefixed) part of one detail row, all 24 SELECTed fields. -/
structure DetLine where
  r_numeroriga : Int
  r_codicearti : Option String
  r_descrizione_articolo : Option String
  r_descrizione_riga : Option String
  r_unmisura : SqlVal
  r_quantita : SqlVal
  r_quantitare : SqlVal
  r_sconti : SqlVal
  r_prezzoun : SqlVal
  r_prezzotot : SqlVal
  r_aliiva : SqlVal
  r_magpartenz : SqlVal
  r_magarrivo : SqlVal
  r_lotto : SqlVal
  r_commessa : SqlVal
  r_mezzo : SqlVal
  r_tipolav : SqlVal
  r_codcaumag : SqlVal
  r_note_riga : SqlVal
  r_username : SqlVal
  r_timestamp_row : SqlVal
  r_pass : Option String
  r_fascia : Option String
  r_componenti : String
deriving DecidableEq, Repr

structure DetRow where
  hdr : DetHeader
  line : DetLine
deriving DecidableEq, Repr

/-- The header projection of the detail SELECT, from the `doctes` row and
the left-joined `anagrafe` row. -/
def mkDetHeader (d : DocTes) (aOpt : Option Anagrafe) : DetHeader :=
  { d_tipodoc := d.tipodoc
    d_esanno := d.esanno
    d_numerodoc := d.numerodoc
    d_datadoc := d.datadoc
    d_codicecf := d.codicecf
    d_cliente_nome := clienteNome aOpt
    d_piva := match aOpt with | none => .vnull | some a => a.partiva
    d_cfisc := match aOpt with | none => .vnull | some a => a.codfiscale
    d_ddragsoc := d.ddragsoc
    d_ddindir := d.ddindir
    d_ddcap := d.ddcap
    d_ddlocal := d.ddlocal
    d_totdoc := d.totdoc
    d_totimp := d.totimp
    d_totmerce := d.totmerce
    d_totiva := d.totiva
    d_oggetto := d.oggetto
    d_note_testa := d.note
    d_username := d.username
    d_timestamp_row := d.timestamp_row }

/-- The line projection of the detail SELECT, from the `docrig` row and the
left-joined `magart` / `u_scimp` rows. -/
def mkDetLine (r : DocRig) (maOpt : Option MagArt) (usOpt : Option UScimp) : DetLine :=
  { r_numeroriga := r.numeroriga
    r_codicearti := r.codicearti
    r_descrizione_articolo := maOpt.bind MagArt.descrizion
    r_descrizione_riga := r.descrizion
    r_unmisura := r.unmisura
    r_quantita := r.quantita
    r_quantitare := r.quantitare
    r_sconti := r.sconti
    r_prezzoun := r.prezzoun
    r_prezzotot := r.prezzotot
    r_aliiva := r.aliiva
    r_magpartenz := r.magpartenz
    r_magarrivo := r.magarrivo
    r_lotto := r.lotto
    r_commessa := r.commessa
    r_mezzo := r.mezzo
    r_tipolav := r.tipolav
    r_codcaumag := r.codcaumag
    r_note_riga := r.note
    r_username := r.username
    r_timestamp_row := r.timestamp_row
    r_pass := sqlCoalesce (usOpt.bind UScimp.passo) (maOpt.bind MagArt.u_passo)
    r_fascia := sqlCoalesce (usOpt.bind UScimp.fascia) (maOpt.bind MagArt.u_fascia)
    r_componenti := componenti r }

def mkDetRow (j : JoinedLine) : DetRow :=
  { hdr := mkDetHeader j.d j.a, line := mkDetLine j.r j.ma j.us }

/-- WHERE clause of the detail query (quality_queries.py lines 402-406):
exact key match plus the non-empty item-code restriction. -/
def detWhere (pt : String) (pe : Int) (pn : String) (j : JoinedLine) : SqlB :=
  sqlAnd (sqlEqStr (some j.d.tipodoc) (some pt))
    (sqlAnd (sqlEqInt (some j.d.esanno) (some pe))
      (sqlAnd (sqlEqStr (some j.d.numerodoc) (some pn))
        (sqlAnd (some j.r.codicearti.isSome)
          (sqlNeEmpty j.r.codicearti))))

/-- Model of `ORDER BY r.numeroriga ASC`. -/
def detRowLe (x y : DetRow) : Bool :=
  decide (x.line.r_numeroriga ≤ y.line.r_numeroriga)

/-- Evaluation of `get_scheda_lavoro_sql`: same join shape, exact-key WHERE,
ordered by line number ascending, no LIMIT/OFFSET. -/
def QuerySqlQualityMYSQL.get_scheda_lavoro_eval (db : Db)
    (pt : String) (pe : Int) (pn : String) : List DetRow :=
  let kept := (lineJoin db).filter (fun j => detWhere pt pe pn j = some true)
  sortLe detRowLe (kept.map mkDetRow)

/-- The repository-level error for missing mandatory detail-key parts
(`ValueError` in the source). -/
inductive RepoErr
  | invalidArgument (msg : String)
deriving DecidableEq, Repr

/-- Model of `QualityRepositoryMYSQL.get_scheda_lavoro` (QualityRepository.py lines
226-255): `ValueError` when `tipodoc` or `numerodoc` is falsy (the empty
string), raised before the query is built or any session is opened;
otherwise execute the detail query with the three key parameters. -/
def QualityRepositoryMYSQL.get_scheda_lavoro (db : Db)
    (tipodoc : String) (esanno : Int) (numerodoc : String) :
    Except RepoErr (List DetRow) :=
  if tipodoc = "" then
    .error (.invalidArgument "tipodoc è obbligatorio per get_scheda_lavoro")
  else if numerodoc = "" then
    .error (.invalidArgument "numerodoc è obbligatorio per get_scheda_lavoro")
  else
    .ok (QuerySqlQualityMYSQL.get_scheda_lavoro_eval db tipodoc esanno numerodoc)

/-! ## `app/quality/service/QualityService.py`: projection service

The service works on the raw driver rows; they are embedded as association
lists in column order.  `_extract_header` / `_extract_row` are the two
prefix-stripping projections, and the list operations apply the
recognized-type safety filter after extraction. -/

/-- Model of `DEFAULT_TIPI_DOC` (QualityService.py line 12). -/
def DEFAULT_TIPI_DOC : List String := ["OC", "ON", "BA", "CB", "BC", "BO"]

/-- Model of `QualityService._extract_header` (lines 237-248): keep the `d_`-prefixed
keys, stripped of the prefix, in row order. -/
def QualityService.extract_header (row : AssocRow) : AssocRow :=
  row.filterMap (fun kv =>
    if pyStartsWith kv.1 "d_" then some (pyDrop kv.1 2, kv.2) else none)

/-- Model of `QualityService._extract_row` (lines 250-262): keep the `r_`-prefixed
keys, stripped of the prefix, in row order. -/
def QualityService.extract_row (row : AssocRow) : AssocRow :=
  row.filterMap (fun kv =>
    if pyStartsWith kv.1 "r_" then some (pyDrop kv.1 2, kv.2) else none)

/-- Python `dict.get` on an association list (keys are unique in a dict, so
the first match is the value). -/
def assocGet (row : AssocRow) (k : String) : Option SqlVal :=
  (row.find? (fun kv => kv.1 = k)).map (fun kv => kv.2)

/-- Python `str(v or "")`: `None`, the empty string and the integer `0` are
falsy and give `""`; any other value is rendered with `str`. -/
def pyStrOr : Option SqlVal → String
  | none => ""
  | some .vnull => ""
  | some (.vstr s) => s
  | some (.vint n) => if n = 0 then "" else toString n

/-- Model of `str(header.get("tipodoc") or "").upper()` (QualityService.py line 71). -/
def tipOf (header : AssocRow) : String :=
  upperStr (pyStrOr (assocGet header "tipodoc"))

/-- The row loop of `QualityService.search_schede_lavoro` (lines 66-76):
extract the header from each raw row and drop it when its resolved type code
is non-empty and not in the recognized set. -/
def QualityService.project_schede : List AssocRow → List AssocRow
  | [] => []
  | row :: rest =>
      let header := QualityService.extract_header row
      let tip := tipOf header
      if tip ≠ "" ∧ tip ∉ DEFAULT_TIPI_DOC then
        QualityService.project_schede rest
      else
        header :: QualityService.project_schede rest

/-- Model of `value-or-None` stored into the merged item dict (`header.get(k)` gives
`None` both for an absent key and a NULL value). -/
def getV (row : AssocRow) (k : String) : SqlVal :=
  (assocGet row k).getD .vnull

/-- The merged header+line item built by
`QualityService.search_articoli_per_cliente` (lines 113-131), keys in
construction order. -/
def mkArticoloItem (header r : AssocRow) : AssocRow :=
  [("tipodoc", getV header "tipodoc"),
   ("esanno", getV header "esanno"),
   ("numerodoc", getV header "numerodoc"),
   ("datadoc", getV header "datadoc"),
   ("codicecf", getV header "codicecf"),
   ("cliente_nome", getV header "cliente_nome"),
   ("numeroriga", getV r "numeroriga"),
   ("codicearti", getV r "codicearti"),
   ("descrizione_articolo", getV r "descrizione_articolo"),
   ("descrizione_riga", getV r "descrizione_riga"),
   ("unmisura", getV r "unmisura"),
   ("quantita", getV r "quantita"),
   ("quantitare", getV r "quantitare"),
   ("pass", getV r "pass"),
   ("fascia", getV r "fascia"),
   ("componenti", getV r "componenti")]

/-- The row loop of `QualityService.search_articoli_per_cliente`
(lines 106-134): same safety filter on the extracted header, then the merged
header+line item. -/
def QualityService.project_articoli : List AssocRow → List AssocRow
  | [] => []
  | row :: rest =>
      let header := QualityService.extract_header row
      let tip := tipOf header
      if tip ≠ "" ∧ tip ∉ DEFAULT_TIPI_DOC then
        QualityService.project_articoli rest
      else
        mkArticoloItem header (QualityService.extract_row row)
          :: QualityService.project_articoli rest

/-- Model of `QualityService.get_scheda_lavoro` (lines 200-232), as a function of the
rows the repository returned: zero rows give `{"header": None, "righe": []}`
without an error; otherwise the header is extracted from the first row and
every row is projected to a line. -/
def QualityService.get_scheda_lavoro_result (rows : List AssocRow) :
    Option AssocRow × List AssocRow :=
  match rows with
  | [] => (none, [])
  | r0 :: _ => (some (QualityService.extract_header r0),
                rows.map QualityService.extract_row)

/-- The caller-facing argument record of `QualityService.search_schede_lavoro`
(lines 31-42). -/
structure SearchSchedeArgs where
  tipodoc : Option String
  numerodoc : Option String
  year : Option Int
  codicecf : Option String
  fornitore_search : Option String
  articolo_search : Option String
  limit : Int
  offset : Int
deriving DecidableEq, Repr

/-- Model of `QualityService.search_schede_lavoro` (lines 31-76), parameterized by
the repository the service instance holds: pass the arguments through to the
repository and project the raw rows. -/
def QualityService.search_schede_lavoro
    (repo : SearchSchedeArgs → List AssocRow) (args : SearchSchedeArgs) :
    List AssocRow :=
  QualityService.project_schede (repo args)

/-- Model of `QualityService.list_schede_lavoro` (lines 162-195): the legacy wrapper.
It renames `cliente_search`/`text_search`, ignores `tipi_doc`, and calls
`search_schede_lavoro` with `tipodoc=None, numerodoc=None`. -/
def QualityService.list_schede_lavoro
    (repo : SearchSchedeArgs → List AssocRow)
    (year : Option Int) (codicecf cliente_search text_search : Option String)
    (_tipi_doc : Option (List String)) (limit offset : Int) : List AssocRow :=
  let fornitore_search := cliente_search
  let articolo_search := text_search
  QualityService.search_schede_lavoro repo
    { tipodoc := none
      numerodoc := none
      year := year
      codicecf := codicecf
      fornitore_search := fornitore_search
      articolo_search := articolo_search
      limit := limit
      offset := offset }

/-! ## The header-search template `search_schede_lavoro_sql`
(quality_queries.py lines 38-153), transcribed verbatim, split at the
boundaries of its filter predicates.  The source builds it as one
f-string; the concatenation of the segments below is that string. -/

/-- Model of the comma-joined quoted type list the f-string interpolates
(quality_queries.py line 78). -/
def tipiDocSqlList : String :=
  String.intercalate ", " (TIPI_DOC_LAVORO.map (fun t => "\x27" ++ t ++ "\x27"))

/-- Template segment: SELECT list, FROM/JOIN and the fixed recognized-type restriction (the f-string interpolation of `tipi_doc` becomes explicit concatenation); 0 placeholders. -/
def sqlSchedeHead : String :=
  "\n" ++
  "        SELECT\n" ++
  "            d.tipodoc                               AS d_tipodoc,\n" ++
  "            d.esanno                                AS d_esanno,\n" ++
  "            d.numerodoc                             AS d_numerodoc,\n" ++
  "            d.datadoc                               AS d_datadoc,\n" ++
  "            d.codicecf                              AS d_codicecf,\n" ++
  "            COALESCE(a.SUPRAGSOC, a.DESCRIZION)     AS d_cliente_nome,\n" ++
  "            a.PARTIVA                               AS d_piva,\n" ++
  "            a.CODFISCALE                            AS d_cfisc,\n" ++
  "            d.ddragsoc                              AS d_ddragsoc,\n" ++
  "            d.ddindir                               AS d_ddindir,\n" ++
  "            d.ddcap                                 AS d_ddcap,\n" ++
  "            d.ddlocal                               AS d_ddlocal,\n" ++
  "            d.totdoc                                AS d_totdoc,\n" ++
  "            d.totimp                                AS d_totimp,\n" ++
  "            d.totmerce                              AS d_totmerce,\n" ++
  "            d.totiva                                AS d_totiva,\n" ++
  "            d.oggetto                               AS d_oggetto,\n" ++
  "            d.note                                  AS d_note_testa,\n" ++
  "            d.username                              AS d_username,\n" ++
  "            d.timestamp_row                         AS d_timestamp_row\n" ++
  "        FROM doctes d\n" ++
  "        LEFT JOIN anagrafe a\n" ++
  "               ON a.CODICE = d.codicecf\n" ++
  "        WHERE\n" ++
  "            -- includiamo solo i tipi documento di interesse\n" ++
  "            d.tipodoc IN (" ++ tipiDocSqlList ++ ")\n" ++
  "\n"

/-- Template segment: optional document-type filter; 2 placeholders. -/
def sqlSchedeTipodocPred : String :=
  "            -- filtro per tipo doc opzionale (OC/ON/BA/CB/BC/BO)\n" ++
  "            AND (%s IS NULL OR d.tipodoc = %s)\n" ++
  "\n"

/-- Template segment: optional partial document-number filter; 2 placeholders. -/
def sqlSchedeNumerodocPred : String :=
  "            -- filtro per NUMERO DOCUMENTO (parziale)\n" ++
  "            AND (%s IS NULL OR d.numerodoc LIKE CONCAT(\x27%%\x27, %s, \x27%%\x27))\n" ++
  "\n"

/-- Template segment: optional fiscal-year filter; 2 placeholders. -/
def sqlSchedeEsannoPred : String :=
  "            -- filtro per ANNO / ESERCIZIO\n" ++
  "            AND (%s IS NULL OR d.esanno = %s)\n" ++
  "\n"

/-- Template segment: optional counterparty-code filter; 2 placeholders. -/
def sqlSchedeCodicecfPred : String :=
  "            -- filtro per CODICE CLIENTE / FORNITORE\n" ++
  "            AND (%s IS NULL OR d.codicecf = %s)\n" ++
  "\n"

/-- Template segment: optional counterparty-name filter over two name columns; 3 placeholders. -/
def sqlSchedeFornitorePred : String :=
  "            -- filtro per RAGIONE SOCIALE (anagrafe)\n" ++
  "            AND (\n" ++
  "                %s IS NULL\n" ++
  "                OR a.DESCRIZION LIKE CONCAT(\x27%%\x27, %s, \x27%%\x27)\n" ++
  "                OR a.SUPRAGSOC  LIKE CONCAT(\x27%%\x27, %s, \x27%%\x27)\n" ++
  "            )\n" ++
  "\n"

/-- Template segment: optional item-text filter (guard plus EXISTS subquery over five columns); 6 placeholders. -/
def sqlSchedeArticoloPred : String :=
  "            -- filtro per ARTICOLO / TESTO RIGA DOCUMENTO\n" ++
  "            AND (\n" ++
  "                %s IS NULL\n" ++
  "                OR EXISTS (\n" ++
  "                    SELECT 1\n" ++
  "                    FROM docrig r2\n" ++
  "                    LEFT JOIN magart ma2\n" ++
  "                           ON ma2.CODICE = r2.codicearti\n" ++
  "                    LEFT JOIN u_scimp us2\n" ++
  "                           ON us2.id_rigadoc = r2.id\n" ++
  "                    WHERE r2.tipodoc   = d.tipodoc\n" ++
  "                      AND r2.esanno    = d.esanno\n" ++
  "                      AND r2.numerodoc = d.numerodoc\n" ++
  "                      AND (\n" ++
  "                          r2.codicearti LIKE CONCAT(\x27%%\x27, %s, \x27%%\x27)\n" ++
  "                          OR r2.descrizion LIKE CONCAT(\x27%%\x27, %s, \x27%%\x27)\n" ++
  "                          OR ma2.DESCRIZION LIKE CONCAT(\x27%%\x27, %s, \x27%%\x27)\n" ++
  "                          OR us2.passo  LIKE CONCAT(\x27%%\x27, %s, \x27%%\x27)\n" ++
  "                          OR us2.fascia LIKE CONCAT(\x27%%\x27, %s, \x27%%\x27)\n" ++
  "                      )\n" ++
  "                )\n" ++
  "            )\n" ++
  "\n"

/-- Template segment: ORDER BY and pagination; 2 placeholders (limit, offset). -/
def sqlSchedeTail : String :=
  "        ORDER BY d.datadoc DESC, d.numerodoc DESC\n" ++
  "        LIMIT %s OFFSET %s\n" ++
  "        "

/-- The full header-search template returned by
`QuerySqlQualityMYSQL.search_schede_lavoro_sql`. -/
def search_schede_lavoro_sql : String :=
  sqlSchedeHead ++ sqlSchedeTipodocPred ++ sqlSchedeNumerodocPred ++
    sqlSchedeEsannoPred ++ sqlSchedeCodicecfPred ++ sqlSchedeFornitorePred ++
    sqlSchedeArticoloPred ++ sqlSchedeTail

/-- Number of `%s` placeholders the driver substitutes in a statement:
mysql-connector replaces each literal occurrence of `%s`, scanning left to
right (`RE_PY_PARAM`); `%%` is not an escape for this substitution. -/
def countPS : List Char → Nat
  | '%' :: 's' :: rest => countPS rest + 1
  | _ :: rest => countPS rest
  | [] => 0

/-- The positional parameter list built by
`QualityRepositoryMYSQL.search_schede_lavoro` (QualityRepository.py lines
61-124): normalized filter values, each repeated once per placeholder of its
predicate, in template order, with `limit` and `offset` last. -/
def QualityRepositoryMYSQL.search_schede_lavoro_params
    (tipodoc numerodoc : Option String) (year : Option Int)
    (codicecf fornitore_search articolo_search : Option String)
    (limit offset : Int) : List SqlVal :=
  let tipodoc_val := normTipodoc tipodoc
  let numerodoc_val := normOptStr numerodoc
  let year_val := year
  let codicecf_val := normOptStr codicecf
  let fornitore_val := normOptStr fornitore_search
  let articolo_val := normOptStr articolo_search
  [optStrV tipodoc_val,
   optStrV tipodoc_val,
   optStrV numerodoc_val,
   optStrV numerodoc_val,
   optIntV year_val,
   optIntV year_val,
   optStrV codicecf_val,
   optStrV codicecf_val,
   optStrV fornitore_val,
   optStrV fornitore_val,
   optStrV fornitore_val,
   optStrV articolo_val,
   optStrV articolo_val,
   optStrV articolo_val,
   optStrV articolo_val,
   optStrV articolo_val,
   optStrV articolo_val,
   .vint limit,
   .vint offset]

/-! ## Concrete sample data used by witnesses and counterexamples -/

def dWit : DocTes :=
  { tipodoc := "OC", esanno := 2024, numerodoc := "100", datadoc := 20240101
    codicecf := some "C1"
    ddragsoc := .vnull, ddindir := .vnull, ddcap := .vnull, ddlocal := .vnull
    totdoc := .vnull, totimp := .vnull, totmerce := .vnull, totiva := .vnull
    oggetto := .vnull, note := .vnull, username := .vnull, timestamp_row := .vnull }

def rWitBase : DocRig :=
  { id := 1, tipodoc := "OC", esanno := 2024, numerodoc := "100", numeroriga := 1
    codicearti := some "ART1", descrizion := some "TUBO"
    unmisura := .vnull, quantita := .vnull, quantitare := .vnull
    sconti := .vnull, prezzoun := .vnull, prezzotot := .vnull, aliiva := .vnull
    magpartenz := .vnull, magarrivo := .vnull, lotto := .vnull, commessa := .vnull
    mezzo := .vnull, tipolav := .vnull, codcaumag := .vnull
    u_compon1 := none, u_compon2 := none, u_compon3 := none, u_compon4 := none
    note := .vnull, username := .vnull, timestamp_row := .vnull }

def maWit : MagArt :=
  { codice := "ART1", descrizion := some "TUBO ACCIAIO", u_passo := none, u_fascia := none }

def aWit : Anagrafe :=
  { codice := "C1", descrizion := some "ACME SRL", supragsoc := none
    partiva := .vnull, codfiscale := .vnull }

/-- Database for the C3 witness: one document with one ordinary product line. -/
def dbWitArt : Db :=
  { doctes := [dWit], docrig := [rWitBase], anagrafe := [], magart := [maWit], u_scimp := [] }

/-- The single row the counterparty-line search returns on `dbWitArt`. -/
def artRowWit : ArtRow :=
  mkArtRow { d := dWit, a := none, r := rWitBase, ma := some maWit, us := none }

/-- Second detail line for the C2 witness database. -/
def rWit2 : DocRig :=
  { rWitBase with id := 2, numeroriga := 2, codicearti := some "ART2", descrizion := some "LAMIERA" }

/-- Database for the C2 witness: one document, two lines, one counterparty. -/
def dbWitDet : Db :=
  { doctes := [dWit], docrig := [rWitBase, rWit2], anagrafe := [aWit], magart := [], u_scimp := [] }

/-- A line whose item code is the empty string: it belongs to the document
with key ("OC", 2024, "100") but the detail query's
`r.codicearti <> ''` restriction omits it. -/
def rEmptyCode : DocRig :=
  { rWitBase with id := 3, numeroriga := 1, codicearti := some "" }

/-- Database for the C2 counterexample: the document exists and has exactly
one line, whose item code is empty. -/
def dbCexDet : Db :=
  { doctes := [dWit], docrig := [rEmptyCode], anagrafe := [], magart := [], u_scimp := [] }

/-- A raw driver row (header search shape) used by service-layer witnesses. -/
def sampleRawRow : AssocRow :=
  [("d_tipodoc", .vstr "OC"), ("d_esanno", .vint 2024),
   ("d_numerodoc", .vstr "100"), ("r_numeroriga", .vint 1),
   ("r_codicearti", .vstr "ART1")]

/-- Driver behaviour whose statement execution raises exception 7. -/
def behRunFails : DriverBeh :=
  { runRes := .error (.driverErr 7), fetchRes := .ok [], commitRes := .ok () }

/-! # Theorems

First the generic lemmas about the embedding's building blocks, then one
theorem per specification claim (with its witness or counterexample). -/

theorem mem_insertLe {α : Type} (le : α → α → Bool) (a x : α) (l : List α) :
    x ∈ insertLe le a l ↔ x = a ∨ x ∈ l := by
  induction l with
  | nil => simp [insertLe]
  | cons b l ih =>
      by_cases h : le a b = true
      · simp [insertLe, h]
      · simp only [insertLe, if_neg h, List.mem_cons, ih]
        tauto

theorem mem_sortLe {α : Type} (le : α → α → Bool) (x : α) (l : List α) :
    x ∈ sortLe le l ↔ x ∈ l := by
  induction l with
  | nil => simp [sortLe]
  | cons a l ih => simp [sortLe, mem_insertLe, ih]

theorem pairwise_insertLe {α : Type} (le : α → α → Bool)
    (htot : ∀ a b, le a b = true ∨ le b a = true)
    (htrans : ∀ a b c, le a b = true → le b c = true → le a c = true)
    (a : α) (l : List α) (hl : l.Pairwise (fun x y => le x y = true)) :
    (insertLe le a l).Pairwise (fun x y => le x y = true) := by
  induction l with
  | nil => simp [insertLe]
  | cons b l ih =>
      rcases hl with _ | ⟨hb, hl⟩
      by_cases h : le a b = true
      · simp only [insertLe, if_pos h]
        refine List.Pairwise.cons ?_ (List.Pairwise.cons hb hl)
        intro x hx
        rcases List.mem_cons.mp hx with rfl | hx
        · exact h
        · exact htrans a b x h (hb x hx)
      · have hba : le b a = true := by
          rcases htot a b with h1 | h1
          · exact absurd h1 h
          · exact h1
        simp only [insertLe, if_neg h]
        refine List.Pairwise.cons ?_ (ih hl)
        intro x hx
        rcases (mem_insertLe le a x l).mp hx with rfl | hx
        · exact hba
        · exact hb x hx

theorem pairwise_sortLe {α : Type} (le : α → α → Bool)
    (htot : ∀ a b, le a b = true ∨ le b a = true)
    (htrans : ∀ a b c, le a b = true → le b c = true → le a c = true)
    (l : List α) :
    (sortLe le l).Pairwise (fun x y => le x y = true) := by
  induction l with
  | nil => simp [sortLe]
  | cons a l ih => exact pairwise_insertLe le htot htrans a (sortLe le l) ih

/-! ## Three-valued-logic lemmas -/

theorem sqlAnd_eq_true {a b : SqlB} :
    sqlAnd a b = some true ↔ a = some true ∧ b = some true := by
  rcases a with _ | _ | _ <;> rcases b with _ | _ | _ <;> simp [sqlAnd]

theorem sqlOr_eq_false {a b : SqlB} :
    sqlOr a b = some false ↔ a = some false ∧ b = some false := by
  rcases a with _ | _ | _ <;> rcases b with _ | _ | _ <;> simp [sqlOr]

theorem sqlNot_eq_true {a : SqlB} : sqlNot a = some true ↔ a = some false := by
  rcases a with _ | _ | _ <;> simp [sqlNot]

theorem sqlLike_eq_false {col : Option String} {pat : String} :
    sqlLike col pat = some false ↔
      ∃ s, col = some s ∧ likeMatch pat.data s.data = false := by
  rcases col with _ | s <;> simp [sqlLike]

theorem sqlLike_upper_eq_false {col : Option String} {pat : String} :
    sqlLike (sqlUpper col) pat = some false ↔
      ∃ s, col = some s ∧ likeMatch pat.data (upperStr s).data = false := by
  rcases col with _ | s <;> simp [sqlLike, sqlUpper]

theorem sqlNeEmpty_eq_true {col : Option String} :
    sqlNeEmpty col = some true ↔ ∃ s, col = some s ∧ s ≠ "" := by
  rcases col with _ | s <;> simp [sqlNeEmpty]

theorem likeFuel_stable : ∀ (f g : Nat) (p s : List Char),
    p.length + s.length < f → p.length + s.length < g →
    likeFuel f p s = likeFuel g p s := by
  intro f
  induction f with
  | zero => intro g p s hf; omega
  | succ f ih =>
      intro g p s hf hg
      cases g with
      | zero => omega
      | succ g =>
          cases p with
          | nil => cases s <;> rfl
          | cons c p2 =>
              simp only [likeFuel]
              by_cases hc : c = '%'
              · subst hc
                simp only [if_pos rfl]
                cases s with
                | nil =>
                    dsimp only
                    have h1 : p2.length + ([] : List Char).length < f := by
                      simp at hf ⊢; omega
                    have h2 : p2.length + ([] : List Char).length < g := by
                      simp at hg ⊢; omega
                    simp [ih g p2 [] h1 h2]
                | cons d s2 =>
                    have h1 : p2.length + (d :: s2).length < f := by
                      simp at hf ⊢; omega
                    have h2 : p2.length + (d :: s2).length < g := by
                      simp at hg ⊢; omega
                    have h3 : ('%' :: p2).length + s2.length < f := by
                      simp at hf ⊢; omega
                    have h4 : ('%' :: p2).length + s2.length < g := by
                      simp at hg ⊢; omega
                    dsimp only
                    simp [ih g p2 (d :: s2) h1 h2, ih g ('%' :: p2) s2 h3 h4]
              · by_cases hu : c = '_'
                · subst hu
                  simp only [if_neg hc, if_pos rfl]
                  cases s with
                  | nil => rfl
                  | cons d s2 =>
                      have h1 : p2.length + s2.length < f := by simp at hf ⊢; omega
                      have h2 : p2.length + s2.length < g := by simp at hg ⊢; omega
                      dsimp only
                      simp [hc, ih g p2 s2 h1 h2]
                · simp only [if_neg hc, if_neg hu]
                  cases s with
                  | nil => rfl
                  | cons d s2 =>
                      have h1 : p2.length + s2.length < f := by simp at hf ⊢; omega
                      have h2 : p2.length + s2.length < g := by simp at hg ⊢; omega
                      dsimp only
                      simp [hc, hu, ih g p2 s2 h1 h2]

theorem likeMatch_fuel (f : Nat) (p s : List Char) (hf : p.length + s.length < f) :
    likeFuel f p s = likeMatch p s :=
  likeFuel_stable f (p.length + s.length + 1) p s hf (by omega)

theorem likeFuel_star (f : Nat) (p s : List Char) :
    likeFuel (f + 1) ('%' :: p) s =
      (likeFuel f p s ||
        match s with
        | [] => false
        | _ :: s2 => likeFuel f ('%' :: p) s2) := by
  conv_lhs => rw [likeFuel.eq_def]
  dsimp only
  rw [if_pos rfl]

theorem likeFuel_lit (f : Nat) (c : Char) (p s : List Char)
    (hc : c ≠ '%') (hu : c ≠ '_') :
    likeFuel (f + 1) (c :: p) s =
      (match s with
       | [] => false
       | d :: s2 => decide (c = d) && likeFuel f p s2) := by
  conv_lhs => rw [likeFuel.eq_def]
  dsimp only
  rw [if_neg hc, if_neg hu]

theorem likeMatch_star (p s : List Char) :
    likeMatch ('%' :: p) s =
      (likeMatch p s ||
        match s with
        | [] => false
        | _ :: s2 => likeMatch ('%' :: p) s2) := by
  have h0 : likeMatch ('%' :: p) s = likeFuel (p.length + s.length + 1 + 1) ('%' :: p) s := by
    unfold likeMatch
    congr 1
    simp
    omega
  rw [h0, likeFuel_star]
  cases s with
  | nil =>
      dsimp only
      rw [likeMatch_fuel (p.length + ([] : List Char).length + 1) p [] (by omega)]
  | cons d s2 =>
      dsimp only
      rw [likeMatch_fuel _ p (d :: s2) (by simp only [List.length_cons]; omega),
          likeMatch_fuel _ ('%' :: p) s2 (by simp only [List.length_cons]; omega)]

theorem likeMatch_lit (c : Char) (p s : List Char)
    (hc : c ≠ '%') (hu : c ≠ '_') :
    likeMatch (c :: p) s =
      (match s with
       | [] => false
       | d :: s2 => decide (c = d) && likeMatch p s2) := by
  have h0 : likeMatch (c :: p) s = likeFuel (p.length + s.length + 1 + 1) (c :: p) s := by
    unfold likeMatch
    congr 1
    simp
    omega
  rw [h0, likeFuel_lit _ _ _ _ hc hu]
  cases s with
  | nil => rfl
  | cons d s2 =>
      dsimp only
      rw [likeMatch_fuel _ p s2 (by simp only [List.length_cons]; omega)]

theorem likeMatch_one_pct (s : List Char) : likeMatch ['%'] s = true := by
  induction s with
  | nil => rfl
  | cons c s ih => rw [likeMatch_star]; simp [ih]

theorem likeMatch_two_pct (s : List Char) : likeMatch ['%', '%'] s = true := by
  rw [likeMatch_star]
  simp [likeMatch_one_pct]

theorem likeMatch_pct_skip (p : List Char) (s1 s2 : List Char)
    (h : likeMatch p s2 = true) : likeMatch ('%' :: p) (s1 ++ s2) = true := by
  induction s1 with
  | nil => rw [likeMatch_star]; simp [h]
  | cons c s1 ih => rw [likeMatch_star]; simp [ih]

theorem likeMatch_lit_append (l : List Char) (p s : List Char)
    (hl : ∀ c ∈ l, c ≠ '%' ∧ c ≠ '_') (h : likeMatch p s = true) :
    likeMatch (l ++ p) (l ++ s) = true := by
  induction l with
  | nil => simpa using h
  | cons c l ih =>
      have hc := hl c (List.mem_cons_self c l)
      have hrest : ∀ x ∈ l, x ≠ '%' ∧ x ≠ '_' :=
        fun x hx => hl x (List.mem_cons_of_mem c hx)
      rw [List.cons_append, List.cons_append, likeMatch_lit c _ _ hc.1 hc.2]
      simp [ih hrest]

theorem prefix_likeMatch (l u : List Char)
    (hl : ∀ c ∈ l, c ≠ '%' ∧ c ≠ '_') (h : l <+: u) :
    likeMatch (l ++ ['%', '%']) u = true := by
  obtain ⟨t, rfl⟩ := h
  exact likeMatch_lit_append l ['%', '%'] t hl (likeMatch_two_pct t)

theorem infix_likeMatch (l u : List Char)
    (hl : ∀ c ∈ l, c ≠ '%' ∧ c ≠ '_') (h : l <:+: u) :
    likeMatch ('%' :: (l ++ ['%'])) u = true := by
  obtain ⟨s1, t, rfl⟩ := h
  rw [List.append_assoc]
  exact likeMatch_pct_skip (l ++ ['%']) s1 (l ++ t)
    (likeMatch_lit_append l ['%'] t hl (likeMatch_one_pct t))

set_option maxRecDepth 4000

/-- C1: the positional parameter list bound by
`QualityRepositoryMYSQL.search_schede_lavoro` has exactly one entry per `%s`
placeholder of the header-search template, in the template's literal
left-to-right order — two slots each for the type, document-number, year and
counterparty-code filters, three for the counterparty-name filter, six for
the item-text filter — with limit and offset as the last two entries, so the
binding cannot be truncated or padded. -/
theorem C1_header_search_param_binding
    (tipodoc numerodoc : Option String) (year : Option Int)
    (codicecf fornitore_search articolo_search : Option String)
    (limit offset : Int) :
    QualityRepositoryMYSQL.search_schede_lavoro_params tipodoc numerodoc year
        codicecf fornitore_search articolo_search limit offset
      = [optStrV (normTipodoc tipodoc), optStrV (normTipodoc tipodoc)]
        ++ [optStrV (normOptStr numerodoc), optStrV (normOptStr numerodoc)]
        ++ [optIntV year, optIntV year]
        ++ [optStrV (normOptStr codicecf), optStrV (normOptStr codicecf)]
        ++ [optStrV (normOptStr fornitore_search), optStrV (normOptStr fornitore_search),
            optStrV (normOptStr fornitore_search)]
        ++ [optStrV (normOptStr articolo_search), optStrV (normOptStr articolo_search),
            optStrV (normOptStr articolo_search), optStrV (normOptStr articolo_search),
            optStrV (normOptStr articolo_search), optStrV (normOptStr articolo_search)]
        ++ [SqlVal.vint limit, SqlVal.vint offset]
    ∧ countPS sqlSchedeHead.data = 0
    ∧ countPS sqlSchedeTipodocPred.data = 2
    ∧ countPS sqlSchedeNumerodocPred.data = 2
    ∧ countPS sqlSchedeEsannoPred.data = 2
    ∧ countPS sqlSchedeCodicecfPred.data = 2
    ∧ countPS sqlSchedeFornitorePred.data = 3
    ∧ countPS sqlSchedeArticoloPred.data = 6
    ∧ countPS sqlSchedeTail.data = 2
    ∧ (QualityRepositoryMYSQL.search_schede_lavoro_params tipodoc numerodoc year
        codicecf fornitore_search articolo_search limit offset).length
      = countPS search_schede_lavoro_sql.data := by
  refine ⟨rfl, by decide, by decide, by decide, by decide, by decide, by decide,
    by decide, by decide, ?_⟩
  have h : countPS search_schede_lavoro_sql.data = 19 := by decide
  rw [h]
  rfl

/-- C8: with no live connection, `MySQLDb.execute` fails with the
NotConnected `RuntimeError` for every operation kind, SQL text and parameter
list, performing no driver action at all. -/
theorem C8_execute_not_connected (query_type : QueryType) (sql : String)
    (params : List SqlVal) (beh : DriverBeh) :
    MySQLDb.execute false query_type sql params beh
      = (.error .runtimeNotConnected, []) := by
  rfl

/-- C9: the scoped session connects on enter, hands the body the connected
wrapper, propagates the body's outcome unchanged (exceptions included), and
closes on every exit path; `MySQLDb.close` releases unconditionally and is a
total function of any connection state. -/
theorem C9_dbmanager_scope {α : Type} (body : ConnSt → Except PyExc α × ConnSt)
    (st : ConnSt) :
    (DbManager.scope body st).1 = (body (MySQLDb.connect st)).1
    ∧ (DbManager.scope body st).2 = MySQLDb.close (body (MySQLDb.connect st)).2
    ∧ MySQLDb.connect st = some true
    ∧ (∀ s : ConnSt, MySQLDb.close s = none) := by
  refine ⟨rfl, rfl, ?_, fun s => rfl⟩
  rcases st with _ | b
  · rfl
  · cases b <;> rfl

/-- C10: the legacy wrapper `QualityService.list_schede_lavoro` returns
exactly what `QualityService.search_schede_lavoro` returns with
`tipodoc = None`, `numerodoc = None`, `fornitore_search = cliente_search`,
`articolo_search = text_search`, and the `tipi_doc` argument has no effect. -/
theorem C10_list_schede_wrapper_equiv
    (repo : SearchSchedeArgs → List AssocRow) (year : Option Int)
    (codicecf cliente_search text_search : Option String)
    (tipi_doc tipi_doc2 : Option (List String)) (limit offset : Int) :
    QualityService.list_schede_lavoro repo year codicecf cliente_search
        text_search tipi_doc limit offset
      = QualityService.search_schede_lavoro repo
          { tipodoc := none, numerodoc := none, year := year, codicecf := codicecf
            fornitore_search := cliente_search, articolo_search := text_search
            limit := limit, offset := offset }
    ∧ QualityService.list_schede_lavoro repo year codicecf cliente_search
        text_search tipi_doc limit offset
      = QualityService.list_schede_lavoro repo year codicecf cliente_search
          text_search tipi_doc2 limit offset :=
  ⟨rfl, rfl⟩

/-- C6: detail lookup fails with the `InvalidArgument` error (`ValueError`)
exactly when the document type or number is empty, before any database
access (the result is independent of the database in that case); with both
key parts non-empty it always proceeds to the query, for every year value —
no other parameter is validated. -/
theorem C6_detail_key_validation (db db2 : Db) (tipodoc : String)
    (esanno : Int) (numerodoc : String) :
    ((tipodoc = "" ∨ numerodoc = "") →
        (∃ msg, QualityRepositoryMYSQL.get_scheda_lavoro db tipodoc esanno numerodoc
            = .error (.invalidArgument msg))
        ∧ QualityRepositoryMYSQL.get_scheda_lavoro db tipodoc esanno numerodoc
            = QualityRepositoryMYSQL.get_scheda_lavoro db2 tipodoc esanno numerodoc)
    ∧ (tipodoc ≠ "" → numerodoc ≠ "" →
        QualityRepositoryMYSQL.get_scheda_lavoro db tipodoc esanno numerodoc
          = .ok (QuerySqlQualityMYSQL.get_scheda_lavoro_eval db tipodoc esanno numerodoc)) := by
  unfold QualityRepositoryMYSQL.get_scheda_lavoro
  constructor
  · intro h
    by_cases ht : tipodoc = ""
    · exact ⟨⟨"tipodoc è obbligatorio per get_scheda_lavoro", by simp [ht]⟩, by simp [ht]⟩
    · have hn : numerodoc = "" := h.resolve_left ht
      exact ⟨⟨"numerodoc è obbligatorio per get_scheda_lavoro", by simp [ht, hn]⟩,
        by simp [ht, hn]⟩
  · intro h1 h2
    simp [h1, h2]

/-- Witness for C6: on a concrete database, an empty document type yields the
`InvalidArgument` failure with a database-independent result, and a complete
key proceeds to the detail query. -/
theorem C6_witness :
    (∃ msg, QualityRepositoryMYSQL.get_scheda_lavoro dbWitDet "" 2024 "100"
        = .error (.invalidArgument msg))
    ∧ QualityRepositoryMYSQL.get_scheda_lavoro dbWitDet "" 2024 "100"
        = QualityRepositoryMYSQL.get_scheda_lavoro dbCexDet "" 2024 "100"
    ∧ QualityRepositoryMYSQL.get_scheda_lavoro dbWitDet "OC" 2024 "100"
        = .ok (QuerySqlQualityMYSQL.get_scheda_lavoro_eval dbWitDet "OC" 2024 "100") :=
  ⟨((C6_detail_key_validation dbWitDet dbCexDet "" 2024 "100").1 (Or.inl rfl)).1,
   ((C6_detail_key_validation dbWitDet dbCexDet "" 2024 "100").1 (Or.inl rfl)).2,
   (C6_detail_key_validation dbWitDet dbCexDet "OC" 2024 "100").2
     (by decide) (by decide)⟩

/-- C4: the service detail operation returns `{header: None, righe: []}` on
zero repository rows (no error), and on `n ≥ 1` rows the header is the
`d_`-prefix projection of the first row while the line list projects every
row in order. -/
theorem C4_service_detail_projection (rows : List AssocRow) :
    (rows = [] → QualityService.get_scheda_lavoro_result rows = (none, []))
    ∧ (∀ r0 rest, rows = r0 :: rest →
        (QualityService.get_scheda_lavoro_result rows).1
          = some (QualityService.extract_header r0))
    ∧ (QualityService.get_scheda_lavoro_result rows).2.length = rows.length
    ∧ (∀ i : Nat, (QualityService.get_scheda_lavoro_result rows).2[i]?
        = (rows[i]?).map QualityService.extract_row) := by
  cases rows with
  | nil =>
      refine ⟨fun _ => rfl, ?_, rfl, fun i => rfl⟩
      intro r0 rest h
      exact absurd h (by simp)
  | cons r0 rest =>
      refine ⟨fun h => absurd h (by simp), ?_, by
        simp [QualityService.get_scheda_lavoro_result], fun i => by
        cases i with
        | zero => simp [QualityService.get_scheda_lavoro_result]
        | succ n =>
            simp [QualityService.get_scheda_lavoro_result, List.getElem?_map]⟩
      intro r0' rest' h
      injection h with h1 h2
      subst h1
      rfl

/-- Witness for C4: the zero-row and one-row cases on concrete data. -/
theorem C4_witness :
    QualityService.get_scheda_lavoro_result [] = (none, [])
    ∧ (QualityService.get_scheda_lavoro_result [sampleRawRow]).1
        = some (QualityService.extract_header sampleRawRow) :=
  ⟨(C4_service_detail_projection []).1 rfl,
   (C4_service_detail_projection [sampleRawRow]).2.1 sampleRawRow [] rfl⟩

/-- C7: on a live connection, whenever any driver step of `MySQLDb.execute`
raises, the wrapper rolls back and then closes the cursor before re-raising
exactly the exception the driver raised (no substitution, no result); on
success the cursor is closed as the final action and no rollback happens. -/
theorem C7_execute_rollback_release (query_type : QueryType) (sql : String)
    (params : List SqlVal) (beh : DriverBeh) :
    (∀ e, (MySQLDb.execute true query_type sql params beh).1 = .error e →
        (∃ pre, (MySQLDb.execute true query_type sql params beh).2
            = pre ++ [DbAction.rollback, DbAction.closeCursor])
        ∧ (beh.runRes = .error e ∨ beh.fetchRes = .error e ∨ beh.commitRes = .error e))
    ∧ (∀ rows, (MySQLDb.execute true query_type sql params beh).1 = .ok rows →
        (∃ pre, (MySQLDb.execute true query_type sql params beh).2
            = pre ++ [DbAction.closeCursor])
        ∧ DbAction.rollback ∉ (MySQLDb.execute true query_type sql params beh).2) := by
  rcases beh with ⟨runRes, fetchRes, commitRes⟩
  cases query_type <;> rcases runRes with e0 | u0 <;>
    rcases fetchRes with e1 | rows1 <;> rcases commitRes with e2 | u2 <;>
    refine ⟨fun e he => ?_, fun rows hr => ?_⟩
  all_goals first
    | exact Except.noConfusion he
    | exact Except.noConfusion hr
    | (have h2 : Except.error e0 = Except.error e := he
       cases h2
       exact ⟨⟨[DbAction.openCursor, DbAction.runStmt sql params], rfl⟩, Or.inl rfl⟩)
    | (have h2 : Except.error e1 = Except.error e := he
       cases h2
       exact ⟨⟨[DbAction.openCursor, DbAction.runStmt sql params, DbAction.fetchAll],
         rfl⟩, Or.inr (Or.inl rfl)⟩)
    | (have h2 : Except.error e2 = Except.error e := he
       cases h2
       exact ⟨⟨[DbAction.openCursor, DbAction.runStmt sql params, DbAction.commit],
         rfl⟩, Or.inr (Or.inr rfl)⟩)
    | exact ⟨⟨[DbAction.openCursor, DbAction.runStmt sql params, DbAction.fetchAll],
        rfl⟩, by simp [MySQLDb.execute]⟩
    | exact ⟨⟨[DbAction.openCursor, DbAction.runStmt sql params, DbAction.commit],
        rfl⟩, by simp [MySQLDb.execute]⟩

/-- Witness for C7: a SELECT whose statement execution raises driver
exception 7 re-raises it after rollback-then-close. -/
theorem C7_witness :
    (MySQLDb.execute true QueryType.SELECT "SELECT 1" [] behRunFails).1
        = .error (.driverErr 7)
    ∧ (∃ pre, (MySQLDb.execute true QueryType.SELECT "SELECT 1" [] behRunFails).2
        = pre ++ [DbAction.rollback, DbAction.closeCursor])
    ∧ (behRunFails.runRes = .error (.driverErr 7)
        ∨ behRunFails.fetchRes = .error (.driverErr 7)
        ∨ behRunFails.commitRes = .error (.driverErr 7)) := by
  refine ⟨rfl, ?_, ?_⟩
  · exact ((C7_execute_rollback_release QueryType.SELECT "SELECT 1" [] behRunFails).1
      (.driverErr 7) rfl).1
  · exact ((C7_execute_rollback_release QueryType.SELECT "SELECT 1" [] behRunFails).1
      (.driverErr 7) rfl).2

/-! ## Service projection lemmas (C5) -/

theorem assocGet_mkArticoloItem_tipodoc (h r : AssocRow) :
    assocGet (mkArticoloItem h r) "tipodoc" = some (getV h "tipodoc") := rfl

theorem pyStrOr_getV (h : AssocRow) (k : String) :
    pyStrOr (some (getV h k)) = pyStrOr (assocGet h k) := by
  unfold getV
  cases assocGet h k with
  | none => rfl
  | some v => rfl

theorem tipOf_mkArticoloItem (h r : AssocRow) :
    tipOf (mkArticoloItem h r) = tipOf h := by
  unfold tipOf
  rw [assocGet_mkArticoloItem_tipodoc, pyStrOr_getV]

theorem project_schede_eq (raw : List AssocRow) :
    QualityService.project_schede raw
      = raw.filterMap (fun row =>
          if tipOf (QualityService.extract_header row) ≠ ""
              ∧ tipOf (QualityService.extract_header row) ∉ DEFAULT_TIPI_DOC
          then none
          else some (QualityService.extract_header row)) := by
  induction raw with
  | nil => rfl
  | cons row rest ih =>
      by_cases h : tipOf (QualityService.extract_header row) ≠ ""
          ∧ tipOf (QualityService.extract_header row) ∉ DEFAULT_TIPI_DOC
      · simp [QualityService.project_schede, h, ih]
      · simp [QualityService.project_schede, h, ih]

theorem project_articoli_eq (raw : List AssocRow) :
    QualityService.project_articoli raw
      = raw.filterMap (fun row =>
          if tipOf (QualityService.extract_header row) ≠ ""
              ∧ tipOf (QualityService.extract_header row) ∉ DEFAULT_TIPI_DOC
          then none
          else some (mkArticoloItem (QualityService.extract_header row)
              (QualityService.extract_row row))) := by
  induction raw with
  | nil => rfl
  | cons row rest ih =>
      by_cases h : tipOf (QualityService.extract_header row) ≠ ""
          ∧ tipOf (QualityService.extract_header row) ∉ DEFAULT_TIPI_DOC
      · simp [QualityService.project_articoli, h, ih]
      · simp [QualityService.project_articoli, h, ih]

/-- C5: every mapping output by the two list operations has a resolved
document-type code that is empty or in the recognized set, and each
operation is exactly the per-row projection that drops any raw row whose
non-empty resolved type code is outside the set. -/
theorem C5_recognized_type_filter (raw : List AssocRow) :
    QualityService.project_schede raw
      = raw.filterMap (fun row =>
          if tipOf (QualityService.extract_header row) ≠ ""
              ∧ tipOf (QualityService.extract_header row) ∉ DEFAULT_TIPI_DOC
          then none
          else some (QualityService.extract_header row))
    ∧ (∀ m ∈ QualityService.project_schede raw,
        tipOf m = "" ∨ tipOf m ∈ DEFAULT_TIPI_DOC)
    ∧ QualityService.project_articoli raw
      = raw.filterMap (fun row =>
          if tipOf (QualityService.extract_header row) ≠ ""
              ∧ tipOf (QualityService.extract_header row) ∉ DEFAULT_TIPI_DOC
          then none
          else some (mkArticoloItem (QualityService.extract_header row)
              (QualityService.extract_row row)))
    ∧ (∀ m ∈ QualityService.project_articoli raw,
        tipOf m = "" ∨ tipOf m ∈ DEFAULT_TIPI_DOC) := by
  refine ⟨project_schede_eq raw, ?_, project_articoli_eq raw, ?_⟩
  · intro m hm
    rw [project_schede_eq] at hm
    obtain ⟨row, hrow, hf⟩ := List.mem_filterMap.mp hm
    by_cases h : tipOf (QualityService.extract_header row) ≠ ""
        ∧ tipOf (QualityService.extract_header row) ∉ DEFAULT_TIPI_DOC
    · rw [if_pos h] at hf
      exact Option.noConfusion hf
    · rw [if_neg h] at hf
      injection hf with hf2
      subst hf2
      rcases Decidable.not_and_iff_or_not.mp h with h1 | h2
      · exact Or.inl (Decidable.not_not.mp h1)
      · exact Or.inr (Decidable.not_not.mp h2)
  · intro m hm
    rw [project_articoli_eq] at hm
    obtain ⟨row, hrow, hf⟩ := List.mem_filterMap.mp hm
    by_cases h : tipOf (QualityService.extract_header row) ≠ ""
        ∧ tipOf (QualityService.extract_header row) ∉ DEFAULT_TIPI_DOC
    · rw [if_pos h] at hf
      exact Option.noConfusion hf
    · rw [if_neg h] at hf
      injection hf with hf2
      subst hf2
      rw [tipOf_mkArticoloItem]
      rcases Decidable.not_and_iff_or_not.mp h with h1 | h2
      · exact Or.inl (Decidable.not_not.mp h1)
      · exact Or.inr (Decidable.not_not.mp h2)

/-- Witness for C5: on a concrete raw row of type `OC`, the projected header
is in the output and its resolved type code is in the recognized set. -/
theorem C5_witness :
    QualityService.extract_header sampleRawRow
        ∈ QualityService.project_schede [sampleRawRow]
    ∧ (tipOf (QualityService.extract_header sampleRawRow) = ""
        ∨ tipOf (QualityService.extract_header sampleRawRow) ∈ DEFAULT_TIPI_DOC) :=
  ⟨by decide,
   (C5_recognized_type_filter [sampleRawRow]).2.1
     (QualityService.extract_header sampleRawRow) (by decide)⟩

/-! ## Query-level lemmas (C3, C2) -/

theorem sqlEqStr_some_eq_true {x y : String} :
    sqlEqStr (some x) (some y) = some true ↔ x = y := by
  simp [sqlEqStr]

theorem sqlEqInt_some_eq_true {x y : Int} :
    sqlEqInt (some x) (some y) = some true ↔ x = y := by
  simp [sqlEqInt]

theorem charsCONAI : ∀ c ∈ "CONAI".data, c ≠ '%' ∧ c ≠ '_' := by decide

theorem charsBANCALE : ∀ c ∈ "BANCALE".data, c ≠ '%' ∧ c ≠ '_' := by decide

/-- C3: a row returned by the counterparty-line search always carries a
present, non-empty item code whose upper-cased form starts with neither
packaging sentinel, and line / item-master descriptions that are present and
contain neither sentinel (upper-cased), for every combination of filters and
pagination. -/
theorem C3_sentinel_exclusion (db : Db) (tipodoc : Option String)
    (year : Option Int) (codicecf cliente_search articolo_search : Option String)
    (limit offset : Nat) (row : ArtRow)
    (hrow : row ∈ QualityRepositoryMYSQL.search_articoli_per_cliente db tipodoc
        year codicecf cliente_search articolo_search limit offset) :
    (∃ s, row.r_codicearti = some s ∧ s ≠ ""
        ∧ ¬ ("CONAI".data <+: (upperStr s).data)
        ∧ ¬ ("BANCALE".data <+: (upperStr s).data))
    ∧ (∀ s, row.r_descrizione_riga = some s →
        ¬ ("CONAI".data <:+: (upperStr s).data)
        ∧ ¬ ("BANCALE".data <:+: (upperStr s).data))
    ∧ (∀ s, row.r_descrizione_articolo = some s →
        ¬ ("CONAI".data <:+: (upperStr s).data)
        ∧ ¬ ("BANCALE".data <:+: (upperStr s).data)) := by
  unfold QualityRepositoryMYSQL.search_articoli_per_cliente
    QuerySqlQualityMYSQL.search_articoli_eval at hrow
  have h1 := List.take_subset _ _ hrow
  have h2 := List.drop_subset _ _ h1
  rw [mem_sortLe] at h2
  obtain ⟨j, hjmem, hjrow⟩ := List.mem_map.mp h2
  have hw : articoliWhere (normTipodoc tipodoc) year (normOptStr codicecf)
      (normOptStr cliente_search) (normOptStr articolo_search) j = some true :=
    of_decide_eq_true (List.mem_filter.mp hjmem).2
  subst hjrow
  unfold articoliWhere at hw
  obtain ⟨hin, hw⟩ := sqlAnd_eq_true.mp hw
  obtain ⟨htd, hw⟩ := sqlAnd_eq_true.mp hw
  obtain ⟨hyr, hw⟩ := sqlAnd_eq_true.mp hw
  obtain ⟨hcf, hw⟩ := sqlAnd_eq_true.mp hw
  obtain ⟨hcl, hw⟩ := sqlAnd_eq_true.mp hw
  obtain ⟨hart, hw⟩ := sqlAnd_eq_true.mp hw
  obtain ⟨hsent, hw⟩ := sqlAnd_eq_true.mp hw
  obtain ⟨hsome, hne⟩ := sqlAnd_eq_true.mp hw
  unfold sentinelExclusionPred at hsent
  rw [sqlNot_eq_true, sqlOr_eq_false] at hsent
  obtain ⟨hs1, hsent⟩ := hsent
  rw [sqlOr_eq_false] at hsent
  obtain ⟨hs2, hsent⟩ := hsent
  rw [sqlOr_eq_false] at hsent
  obtain ⟨hs3, hsent⟩ := hsent
  rw [sqlOr_eq_false] at hsent
  obtain ⟨hs4, hsent⟩ := hsent
  rw [sqlOr_eq_false] at hsent
  obtain ⟨hs5, hs6⟩ := hsent
  obtain ⟨s, hs, hsne⟩ := sqlNeEmpty_eq_true.mp hne
  refine ⟨⟨s, hs, hsne, ?_, ?_⟩, ?_, ?_⟩
  · intro hpre
    obtain ⟨s1, hs1eq, hlm⟩ := sqlLike_upper_eq_false.mp hs1
    have hss : s1 = s := by
      rw [hs] at hs1eq
      exact (Option.some.inj hs1eq).symm
    subst hss
    have hT := prefix_likeMatch "CONAI".data (upperStr s1).data charsCONAI hpre
    rw [show ("CONAI".data ++ ['%', '%'] : List Char) = "CONAI%%".data from rfl] at hT
    rw [hT] at hlm
    exact Bool.noConfusion hlm
  · intro hpre
    obtain ⟨s1, hs1eq, hlm⟩ := sqlLike_upper_eq_false.mp hs2
    have hss : s1 = s := by
      rw [hs] at hs1eq
      exact (Option.some.inj hs1eq).symm
    subst hss
    have hT := prefix_likeMatch "BANCALE".data (upperStr s1).data charsBANCALE hpre
    rw [show ("BANCALE".data ++ ['%', '%'] : List Char) = "BANCALE%%".data from rfl] at hT
    rw [hT] at hlm
    exact Bool.noConfusion hlm
  · intro t ht
    have ht2 : j.r.descrizion = some t := ht
    constructor
    · intro hinf
      obtain ⟨t1, ht1eq, hlm⟩ := sqlLike_upper_eq_false.mp hs3
      have htt : t1 = t := by
        rw [ht2] at ht1eq
        exact (Option.some.inj ht1eq).symm
      subst htt
      have hT := infix_likeMatch "CONAI".data (upperStr t1).data charsCONAI hinf
      rw [show ('%' :: ("CONAI".data ++ ['%']) : List Char) = "%CONAI%".data from rfl] at hT
      rw [hT] at hlm
      exact Bool.noConfusion hlm
    · intro hinf
      obtain ⟨t1, ht1eq, hlm⟩ := sqlLike_upper_eq_false.mp hs4
      have htt : t1 = t := by
        rw [ht2] at ht1eq
        exact (Option.some.inj ht1eq).symm
      subst htt
      have hT := infix_likeMatch "BANCALE".data (upperStr t1).data charsBANCALE hinf
      rw [show ('%' :: ("BANCALE".data ++ ['%']) : List Char) = "%BANCALE%".data from rfl] at hT
      rw [hT] at hlm
      exact Bool.noConfusion hlm
  · intro t ht
    have ht2 : j.ma.bind MagArt.descrizion = some t := ht
    constructor
    · intro hinf
      obtain ⟨t1, ht1eq, hlm⟩ := sqlLike_upper_eq_false.mp hs5
      have htt : t1 = t := by
        rw [ht2] at ht1eq
        exact (Option.some.inj ht1eq).symm
      subst htt
      have hT := infix_likeMatch "CONAI".data (upperStr t1).data charsCONAI hinf
      rw [show ('%' :: ("CONAI".data ++ ['%']) : List Char) = "%CONAI%".data from rfl] at hT
      rw [hT] at hlm
      exact Bool.noConfusion hlm
    · intro hinf
      obtain ⟨t1, ht1eq, hlm⟩ := sqlLike_upper_eq_false.mp hs6
      have htt : t1 = t := by
        rw [ht2] at ht1eq
        exact (Option.some.inj ht1eq).symm
      subst htt
      have hT := infix_likeMatch "BANCALE".data (upperStr t1).data charsBANCALE hinf
      rw [show ('%' :: ("BANCALE".data ++ ['%']) : List Char) = "%BANCALE%".data from rfl] at hT
      rw [hT] at hlm
      exact Bool.noConfusion hlm

/-- Witness for C3: on a concrete database the search returns the product
line, and the theorem applies to it. -/
theorem C3_witness :
    artRowWit ∈ QualityRepositoryMYSQL.search_articoli_per_cliente dbWitArt
        none none none none none 50 0
    ∧ (∃ s, artRowWit.r_codicearti = some s ∧ s ≠ ""
        ∧ ¬ ("CONAI".data <+: (upperStr s).data)
        ∧ ¬ ("BANCALE".data <+: (upperStr s).data)) :=
  ⟨by decide,
   (C3_sentinel_exclusion dbWitArt none none none none none 50 0 artRowWit
     (by decide)).1⟩

theorem mem_leftJoin1 {α : Type} {ms : List α} {x : Option α} :
    x ∈ leftJoin1 ms ↔ (ms = [] ∧ x = none) ∨ ∃ a ∈ ms, x = some a := by
  cases ms with
  | nil => simp [leftJoin1]
  | cons b bs =>
      simp only [leftJoin1, List.mem_map]
      constructor
      · rintro ⟨a, ha, rfl⟩
        exact Or.inr ⟨a, ha, rfl⟩
      · rintro (⟨h, _⟩ | ⟨a, ha, rfl⟩)
        · exact absurd h (by simp)
        · exact ⟨a, ha, rfl⟩

theorem mem_lineJoin {db : Db} {j : JoinedLine} :
    j ∈ lineJoin db ↔
      j.d ∈ db.doctes ∧ j.r ∈ docrigMatches db j.d
        ∧ j.a ∈ leftJoin1 (anagrafeMatches db j.d)
        ∧ j.ma ∈ leftJoin1 (magartMatches db j.r)
        ∧ j.us ∈ leftJoin1 (uscimpMatches db j.r) := by
  constructor
  · intro h
    unfold lineJoin at h
    obtain ⟨d, hd, h⟩ := List.mem_flatMap.mp h
    obtain ⟨r, hr, h⟩ := List.mem_flatMap.mp h
    obtain ⟨a, ha, h⟩ := List.mem_flatMap.mp h
    obtain ⟨ma, hma, h⟩ := List.mem_flatMap.mp h
    obtain ⟨us, hus, hj⟩ := List.mem_map.mp h
    subst hj
    exact ⟨hd, hr, ha, hma, hus⟩
  · rintro ⟨hd, hr, ha, hma, hus⟩
    unfold lineJoin
    refine List.mem_flatMap.mpr ⟨j.d, hd, ?_⟩
    refine List.mem_flatMap.mpr ⟨j.r, hr, ?_⟩
    refine List.mem_flatMap.mpr ⟨j.a, ha, ?_⟩
    refine List.mem_flatMap.mpr ⟨j.ma, hma, ?_⟩
    exact List.mem_map.mpr ⟨j.us, hus, rfl⟩

/-- Counterexample to C2 as stated: in `dbCexDet` the document
("OC", 2024, "100") exists and owns the line `rEmptyCode` (its composite key
matches), yet the detail query returns no row at all — the line is omitted
because its item code is the empty string, which the template's
`r.codicearti <> ''` restriction filters out. -/
theorem C2_counterexample :
    dWit ∈ dbCexDet.doctes
    ∧ rEmptyCode ∈ dbCexDet.docrig
    ∧ rEmptyCode.tipodoc = "OC" ∧ rEmptyCode.esanno = 2024
    ∧ rEmptyCode.numerodoc = "100"
    ∧ dWit.tipodoc = "OC" ∧ dWit.esanno = 2024 ∧ dWit.numerodoc = "100"
    ∧ QuerySqlQualityMYSQL.get_scheda_lavoro_eval dbCexDet "OC" 2024 "100" = [] := by
  decide

/-- C2 (amended): the detail query returns, for the exact composite key, the
full header fields duplicated onto every line of that document **whose item
code is present and non-empty** (lines with an absent or empty item code are
omitted), ordered by line number ascending, with no pagination and no other
filter; header duplication holds whenever the key identifies at most one
header row and counterparty codes are unique. -/
theorem C2_detail_semantics (db : Db) (pt : String) (pe : Int) (pn : String) :
    (∀ row ∈ QuerySqlQualityMYSQL.get_scheda_lavoro_eval db pt pe pn,
        ∃ j : JoinedLine, j ∈ lineJoin db
          ∧ j.d.tipodoc = pt ∧ j.d.esanno = pe ∧ j.d.numerodoc = pn
          ∧ (∃ s, j.r.codicearti = some s ∧ s ≠ "")
          ∧ row = mkDetRow j)
    ∧ (∀ d ∈ db.doctes, d.tipodoc = pt → d.esanno = pe → d.numerodoc = pn →
        ∀ r ∈ db.docrig, r.tipodoc = d.tipodoc → r.esanno = d.esanno →
          r.numerodoc = d.numerodoc →
        ∀ s, r.codicearti = some s → s ≠ "" →
        ∀ aOpt ∈ leftJoin1 (anagrafeMatches db d),
        ∀ maOpt ∈ leftJoin1 (magartMatches db r),
        ∀ usOpt ∈ leftJoin1 (uscimpMatches db r),
          mkDetRow ⟨d, aOpt, r, maOpt, usOpt⟩
            ∈ QuerySqlQualityMYSQL.get_scheda_lavoro_eval db pt pe pn)
    ∧ (QuerySqlQualityMYSQL.get_scheda_lavoro_eval db pt pe pn).Pairwise
        (fun x y => x.line.r_numeroriga ≤ y.line.r_numeroriga)
    ∧ ((∀ d1 ∈ db.doctes, ∀ d2 ∈ db.doctes,
          d1.tipodoc = pt → d1.esanno = pe → d1.numerodoc = pn →
          d2.tipodoc = pt → d2.esanno = pe → d2.numerodoc = pn → d1 = d2) →
        (∀ a1 ∈ db.anagrafe, ∀ a2 ∈ db.anagrafe, a1.codice = a2.codice → a1 = a2) →
        ∀ row1 ∈ QuerySqlQualityMYSQL.get_scheda_lavoro_eval db pt pe pn,
        ∀ row2 ∈ QuerySqlQualityMYSQL.get_scheda_lavoro_eval db pt pe pn,
          row1.hdr = row2.hdr) := by
  have hdw : ∀ j : JoinedLine, detWhere pt pe pn j = some true ↔
      (j.d.tipodoc = pt ∧ j.d.esanno = pe ∧ j.d.numerodoc = pn
        ∧ (∃ s, j.r.codicearti = some s ∧ s ≠ "")) := by
    intro j
    unfold detWhere
    constructor
    · intro h
      obtain ⟨h1, h⟩ := sqlAnd_eq_true.mp h
      obtain ⟨h2, h⟩ := sqlAnd_eq_true.mp h
      obtain ⟨h3, h⟩ := sqlAnd_eq_true.mp h
      obtain ⟨h4, h5⟩ := sqlAnd_eq_true.mp h
      exact ⟨sqlEqStr_some_eq_true.mp h1, sqlEqInt_some_eq_true.mp h2,
        sqlEqStr_some_eq_true.mp h3, sqlNeEmpty_eq_true.mp h5⟩
    · rintro ⟨h1, h2, h3, s, hs, hsne⟩
      refine sqlAnd_eq_true.mpr ⟨sqlEqStr_some_eq_true.mpr h1, ?_⟩
      refine sqlAnd_eq_true.mpr ⟨sqlEqInt_some_eq_true.mpr h2, ?_⟩
      refine sqlAnd_eq_true.mpr ⟨sqlEqStr_some_eq_true.mpr h3, ?_⟩
      refine sqlAnd_eq_true.mpr ⟨?_, sqlNeEmpty_eq_true.mpr ⟨s, hs, hsne⟩⟩
      rw [hs]
      rfl
  have hsound : ∀ row ∈ QuerySqlQualityMYSQL.get_scheda_lavoro_eval db pt pe pn,
      ∃ j : JoinedLine, j ∈ lineJoin db ∧ detWhere pt pe pn j = some true
        ∧ row = mkDetRow j := by
    intro row hr
    unfold QuerySqlQualityMYSQL.get_scheda_lavoro_eval at hr
    rw [mem_sortLe] at hr
    obtain ⟨j, hjmem, hjrow⟩ := List.mem_map.mp hr
    exact ⟨j, (List.mem_filter.mp hjmem).1,
      of_decide_eq_true (List.mem_filter.mp hjmem).2, hjrow.symm⟩
  refine ⟨?_, ?_, ?_, ?_⟩
  · intro row hrow
    obtain ⟨j, hjJoin, hjw, hjrow⟩ := hsound row hrow
    obtain ⟨h1, h2, h3, h4⟩ := (hdw j).mp hjw
    exact ⟨j, hjJoin, h1, h2, h3, h4, hjrow⟩
  · intro d hd htd hte htn r hr h1 h2 h3 s hcs hsne aOpt ha maOpt hma usOpt hus
    unfold QuerySqlQualityMYSQL.get_scheda_lavoro_eval
    rw [mem_sortLe]
    apply List.mem_map_of_mem
    apply List.mem_filter.mpr
    constructor
    · apply mem_lineJoin.mpr
      refine ⟨hd, ?_, ha, hma, hus⟩
      exact List.mem_filter.mpr ⟨hr, decide_eq_true ⟨h1, h2, h3⟩⟩
    · exact decide_eq_true ((hdw _).mpr ⟨htd, hte, htn, s, hcs, hsne⟩)
  · unfold QuerySqlQualityMYSQL.get_scheda_lavoro_eval
    have hp := pairwise_sortLe detRowLe
      (fun a b => by
        rcases Int.le_total a.line.r_numeroriga b.line.r_numeroriga with h | h
        · exact Or.inl (decide_eq_true h)
        · exact Or.inr (decide_eq_true h))
      (fun a b c hab hbc =>
        decide_eq_true (le_trans (of_decide_eq_true hab) (of_decide_eq_true hbc)))
      (((lineJoin db).filter
          (fun j => detWhere pt pe pn j = some true)).map mkDetRow)
    exact hp.imp (fun hxy => of_decide_eq_true hxy)
  · intro hud hua row1 hrow1 row2 hrow2
    obtain ⟨j1, hj1join, hj1w, hj1row⟩ := hsound row1 hrow1
    obtain ⟨j2, hj2join, hj2w, hj2row⟩ := hsound row2 hrow2
    obtain ⟨t1, e1, n1, _⟩ := (hdw j1).mp hj1w
    obtain ⟨t2, e2, n2, _⟩ := (hdw j2).mp hj2w
    have hm1 := mem_lineJoin.mp hj1join
    have hm2 := mem_lineJoin.mp hj2join
    have hdd : j1.d = j2.d := hud j1.d hm1.1 j2.d hm2.1 t1 e1 n1 t2 e2 n2
    have ha1 := hm1.2.2.1
    have ha2 := hm2.2.2.1
    rw [← hdd] at ha2
    have haa : j1.a = j2.a := by
      rcases mem_leftJoin1.mp ha1 with ⟨hemp1, hx1⟩ | ⟨a1, ha1m, hx1⟩
      · rcases mem_leftJoin1.mp ha2 with ⟨_, hx2⟩ | ⟨a2, ha2m, hx2⟩
        · rw [hx1, hx2]
        · rw [hemp1] at ha2m
          exact absurd ha2m (List.not_mem_nil a2)
      · rcases mem_leftJoin1.mp ha2 with ⟨hemp2, hx2⟩ | ⟨a2, ha2m, hx2⟩
        · rw [hemp2] at ha1m
          exact absurd ha1m (List.not_mem_nil a1)
        · have hf1 := List.mem_filter.mp ha1m
          have hf2 := List.mem_filter.mp ha2m
          have hc1 : some a1.codice = j1.d.codicecf := of_decide_eq_true hf1.2
          have hc2 : some a2.codice = j1.d.codicecf := of_decide_eq_true hf2.2
          have hcc : a1.codice = a2.codice := by
            rw [← hc2] at hc1
            exact Option.some.inj hc1
          rw [hx1, hx2, hua a1 hf1.1 a2 hf2.1 hcc]
    rw [hj1row, hj2row]
    show mkDetHeader j1.d j1.a = mkDetHeader j2.d j2.a
    rw [hdd, haa]

/-- Witness for C2: on the two-line database the first line (non-empty item
code) is returned by the detail query, via the completeness part. -/
theorem C2_witness :
    mkDetRow ⟨dWit, some aWit, rWitBase, none, none⟩
      ∈ QuerySqlQualityMYSQL.get_scheda_lavoro_eval dbWitDet "OC" 2024 "100" :=
  (C2_detail_semantics dbWitDet "OC" 2024 "100").2.1 dWit (by decide) rfl rfl rfl
    rWitBase (by decide) rfl rfl rfl "ART1" rfl (by decide)
    (some aWit) (by decide) none (by decide) none (by decide)
